import Mathlib

/-!
Verification of the encryption and training-pipeline core of the
No-code-Fed-Learning repository.

The repository's backend (described in `PRIVACY_ENCRYPTION.md`,
`ENCRYPTION_SUMMARY.md` and `README.md`, and typed by the frontend client
in `src/lib/api.ts`) stores each user's dataset encrypted under a key
derived from the project code and the user id, generates an ML pipeline
from the dataset, trains several models with per-model failure isolation,
and normalizes feature importances to percentages.  The backend Python
modules themselves (`encryption_manager.py`, `pipeline_generator.py`,
`model_trainer.py`, `app.py`) are not part of the checked-in sources here,
so the encryption, key-derivation, pipeline-generation and orchestration
operations are modelled from the specification's words and from the
repository's own documentation; the frontend API client (`lib/api.ts`)
is embedded directly from its source.
-/

namespace FedLearn

/-- The single decryption failure value: the spec's `DecryptionError`
(integrity/key mismatch). -/
inductive DecError : Type where
  | decryptionError : DecError
deriving DecidableEq, Repr

/-- Modelled from the spec: the versioned container's format tag.  A legacy
"plain" tag marks payloads stored before encryption existed; everything the
cipher produces is tagged "encrypted". -/
inductive FormatTag : Type where
  | plain : FormatTag
  | encrypted : FormatTag
deriving DecidableEq, Repr

/-- Modelled from the spec: the `EncryptedBlob` versioned container
{format_tag, nonce, ciphertext, integrity_tag}.  Bytes are natural numbers;
the nonce and the integrity tag are natural numbers. -/
structure EncryptedBlob : Type where
  format_tag : FormatTag
  nonce : Nat
  ciphertext : List Nat
  integrity_tag : Nat
deriving DecidableEq, Repr

/-- Modelled from the spec: one keystream byte of the symmetric cipher,
a fixed mixing of key, nonce and position standing in for the AES-based
stream that Fernet expands from key and nonce. -/
def keystream (key nonce i : Nat) : Nat :=
  (key * 2654435761 + nonce * 40503 + i * 97 + 151) % 256

/-- XOR a byte list against the keystream starting at position `i`.
Applying it twice with the same key, nonce and start position restores
the original bytes. -/
def xorStream (key nonce : Nat) : Nat → List Nat → List Nat
  | _, [] => []
  | i, b :: bs => (b ^^^ keystream key nonce i) :: xorStream key nonce (i + 1) bs

/-- An injective encoding of a byte list into a single natural number,
used by the symbolic integrity tag. -/
def encodeBytes : List Nat → Nat
  | [] => 0
  | b :: bs => Nat.pair b (encodeBytes bs) + 1

/-- Modelled from the spec: the authentication (integrity) tag over the
nonce and the ciphertext under the key.  The spec assumes an ideal MAC —
a wrong key, a changed nonce or a changed ciphertext never verifies — so
the tag is modelled symbolically as an injective pairing of key, nonce
and ciphertext. -/
def mac (key nonce : Nat) (ct : List Nat) : Nat :=
  Nat.pair key (Nat.pair nonce (encodeBytes ct))

/-- Modelled from the spec: `encrypt(key, plaintext) -> EncryptedBlob` with
an explicitly supplied per-call nonce (the caller draws it fresh at random
on each call).  The plaintext is XORed against the keystream and the
integrity tag is computed over nonce and ciphertext. -/
def encrypt (key nonce : Nat) (plaintext : List Nat) : EncryptedBlob :=
  let ct := xorStream key nonce 0 plaintext
  { format_tag := FormatTag.encrypted
    nonce := nonce
    ciphertext := ct
    integrity_tag := mac key nonce ct }

/-- Modelled from the spec: `decrypt(key, blob) -> plaintext | DecryptionError`.
The integrity tag is verified first; only on a match is the ciphertext
decrypted and returned, otherwise the call fails closed. -/
def decrypt (key : Nat) (blob : EncryptedBlob) : Except DecError (List Nat) :=
  if blob.integrity_tag = mac key blob.nonce blob.ciphertext then
    Except.ok (xorStream key blob.nonce 0 blob.ciphertext)
  else
    Except.error DecError.decryptionError

/-- Modelled from the spec (§9 design note) and the repository's own
documentation (`PRIVACY_ENCRYPTION.md`, "Migration from Old Data": "System
tries decryption → fails → uses plaintext"; `ENCRYPTION_SUMMARY.md`, "If
Encryption Fails": "System automatically falls back to plaintext"): the
dataset-retrieval caller attempts decryption and, on any `DecryptionError`,
returns the stored bytes as raw plaintext, without consulting the format
tag. -/
def fetchDataset (key : Nat) (blob : EncryptedBlob) : List Nat :=
  match decrypt key blob with
  | Except.ok p => p
  | Except.error _ => blob.ciphertext

theorem xorStream_xorStream (key nonce : Nat) (bs : List Nat) :
    ∀ i, xorStream key nonce i (xorStream key nonce i bs) = bs := by
  induction bs with
  | nil => intro i; rfl
  | cons b bs ih =>
      intro i
      simp only [xorStream, ih (i + 1)]
      rw [Nat.xor_assoc, Nat.xor_self, Nat.xor_zero]

theorem encodeBytes_injective : Function.Injective encodeBytes := by
  intro xs
  induction xs with
  | nil =>
      intro ys h
      cases ys with
      | nil => rfl
      | cons y ys => simp [encodeBytes] at h
  | cons x xs ih =>
      intro ys h
      cases ys with
      | nil => simp [encodeBytes] at h
      | cons y ys =>
          simp only [encodeBytes, Nat.add_right_cancel_iff] at h
          obtain ⟨h1, h2⟩ := Nat.pair_eq_pair.mp h
          exact h1 ▸ congrArg (List.cons x) (ih h2)

theorem mac_key_injective {k1 k2 n1 n2 : Nat} {c1 c2 : List Nat}
    (h : mac k1 n1 c1 = mac k2 n2 c2) : k1 = k2 ∧ n1 = n2 ∧ c1 = c2 := by
  unfold mac at h
  obtain ⟨hk, h'⟩ := Nat.pair_eq_pair.mp h
  obtain ⟨hn, hc⟩ := Nat.pair_eq_pair.mp h'
  exact ⟨hk, hn, encodeBytes_injective hc⟩

/-- A legacy record stored before encryption existed: tagged "plain", its
payload sitting in the byte field, with no meaningful nonce or tag. -/
def legacyPlainBlob : EncryptedBlob :=
  { format_tag := FormatTag.plain
    nonce := 0
    ciphertext := [10, 20]
    integrity_tag := 0 }

/-- A genuinely encrypted blob whose integrity tag has been corrupted in
storage: tagged "encrypted", it can no longer be decrypted. -/
def tamperedBlob : EncryptedBlob :=
  { encrypt 3 5 [1, 2] with integrity_tag := (encrypt 3 5 [1, 2]).integrity_tag + 1 }

/-- Claim C1: for every key K, nonce and plaintext P, decrypting with K the
EncryptedBlob produced by encrypting P under K returns exactly P. -/
theorem decrypt_encrypt_roundtrip (key nonce : Nat) (p : List Nat) :
    decrypt key (encrypt key nonce p) = Except.ok p := by
  simp [decrypt, encrypt, xorStream_xorStream]

/-- Claim C3: decrypting under a key different from the encryption key fails
closed with `DecryptionError`, and so does decrypting a blob whose ciphertext
was tampered with after encryption — the integrity tag is verified before
anything is returned, so no partial or garbage output is ever produced. -/
theorem decrypt_fails_closed (k1 k2 nonce : Nat) (p : List Nat) (hk : k1 ≠ k2) :
    decrypt k2 (encrypt k1 nonce p) = Except.error DecError.decryptionError ∧
    (∀ ct, ct ≠ xorStream k1 nonce 0 p →
      decrypt k1 { encrypt k1 nonce p with ciphertext := ct }
        = Except.error DecError.decryptionError) := by
  constructor
  · have hmac : ¬ mac k1 nonce (xorStream k1 nonce 0 p)
        = mac k2 nonce (xorStream k1 nonce 0 p) := by
      intro h
      exact hk (mac_key_injective h).1
    simp [decrypt, encrypt, hmac]
  · intro ct hct
    have hmac : ¬ mac k1 nonce (xorStream k1 nonce 0 p) = mac k1 nonce ct := by
      intro h
      exact hct ((mac_key_injective h).2.2).symm
    simp [decrypt, encrypt, hmac]

/-- Witness for claim C3 at concrete keys 3 ≠ 4. -/
theorem decrypt_fails_closed_witness :
    (3 : Nat) ≠ 4 ∧
    decrypt 4 (encrypt 3 5 [1, 2]) = Except.error DecError.decryptionError :=
  ⟨by decide, (decrypt_fails_closed 3 4 5 [1, 2] (by decide)).1⟩

/-- Claim C4: two calls to encrypt with the same key and plaintext but the
distinct nonces that the fresh per-call randomness supplies produce two
different EncryptedBlobs — identical plaintext never yields equal
ciphertext blobs. -/
theorem encrypt_fresh_nonce_distinct (key n1 n2 : Nat) (p : List Nat) (h : n1 ≠ n2) :
    encrypt key n1 p ≠ encrypt key n2 p := by
  intro he
  exact h (congrArg EncryptedBlob.nonce he)

/-- Witness for claim C4: the spec's scenario of a 10-byte payload encrypted
twice under the same key. -/
theorem encrypt_fresh_nonce_distinct_witness :
    (1 : Nat) ≠ 2 ∧
    encrypt 7 1 [0, 1, 2, 3, 4, 5, 6, 7, 8, 9]
      ≠ encrypt 7 2 [0, 1, 2, 3, 4, 5, 6, 7, 8, 9] :=
  ⟨by decide, encrypt_fresh_nonce_distinct 7 1 2 [0, 1, 2, 3, 4, 5, 6, 7, 8, 9] (by decide)⟩

/-- Claim C2 counterexample: a blob tagged "encrypted" whose decryption fails
still receives the raw-plaintext fallback — `fetchDataset` returns its stored
bytes instead of refusing, so the fallback is not restricted to blobs tagged
"plain". -/
theorem legacy_fallback_counterexample :
    tamperedBlob.format_tag = FormatTag.encrypted ∧
    decrypt 3 tamperedBlob = Except.error DecError.decryptionError ∧
    fetchDataset 3 tamperedBlob = tamperedBlob.ciphertext := by
  refine ⟨rfl, by rfl, by rfl⟩

/-- Claim C2 (amended): the raw-plaintext fallback is attempted after every
`DecryptionError`, whatever the blob's format tag — the stored bytes are
returned as plaintext for "plain"-tagged and "encrypted"-tagged blobs
alike. -/
theorem fallback_on_any_failure (key : Nat) (blob : EncryptedBlob)
    (h : decrypt key blob = Except.error DecError.decryptionError) :
    fetchDataset key blob = blob.ciphertext := by
  unfold fetchDataset
  rw [h]

/-- Witness for the amended claim C2 at a concrete legacy plaintext record. -/
theorem fallback_on_any_failure_witness :
    decrypt 3 legacyPlainBlob = Except.error DecError.decryptionError ∧
    fetchDataset 3 legacyPlainBlob = [10, 20] :=
  ⟨by rfl, fallback_on_any_failure 3 legacyPlainBlob (by rfl)⟩

/-- Modelled from the spec: the iteration count of the password-based key
derivation (`ENCRYPTION_SUMMARY.md`: PBKDF2-SHA256 with 100,000 iterations). -/
def deriveIterationCount : Nat := 100000

/-- The key space: keys are fixed-length 256-bit values, represented as
natural numbers below `2 ^ 256`. -/
def keySpace : Nat := 2 ^ 256

/-- Modelled from the spec: one iteration of the key-derivation pseudo-random
function, a fixed mixing of the running state with password and salt material
standing in for HMAC-SHA256. -/
def prfStep (password salt x : Nat) : Nat :=
  (x * 6364136223846793005 + password * 1442695040888963407
    + salt * 2862933555777941757 + 3037000493) % keySpace

/-- Encode a project-code string injectively as a natural number. -/
def encodeProjectCode (s : String) : Nat :=
  s.foldl (fun a c => a * 1114112 + c.toNat + 1) 0

/-- Modelled from the spec: `derive(project_code, user_id, salt) -> key`,
PBKDF2-style — the PRF step is iterated `deriveIterationCount` times over a
seed built from the project code, the user id and the salt.  Pure function of
its inputs: no per-call randomness anywhere. -/
def derive (projectCode : String) (userId : Nat) (salt : Nat) : Nat :=
  Nat.iterate (prfStep (Nat.pair (encodeProjectCode projectCode) userId) salt)
    deriveIterationCount
    (Nat.pair (Nat.pair (encodeProjectCode projectCode) userId) salt % keySpace)

theorem prfStep_lt (password salt x : Nat) : prfStep password salt x < keySpace :=
  Nat.mod_lt _ (by simp [keySpace])

/-- Claim C5: `derive` is a deterministic pure function — identical arguments
always yield the identical key — its output always lies in the fixed-length
256-bit key space, and the underlying derivation iterates its hash step at
least 100,000 times. -/
theorem derive_deterministic_slow :
    (∀ p u s, derive p u s < keySpace) ∧
    100000 ≤ deriveIterationCount ∧
    (∀ p u s p' u' s', p = p' → u = u' → s = s' → derive p u s = derive p' u' s') := by
  refine ⟨?_, by norm_num [deriveIterationCount], ?_⟩
  · intro p u s
    unfold derive
    rw [show deriveIterationCount = 99999 + 1 from rfl, Function.iterate_succ_apply']
    exact prfStep_lt _ _ _
  · intro p u s p' u' s' hp hu hs
    rw [hp, hu, hs]

/-- Witness for claim C5 at concrete identical argument pairs. -/
theorem derive_deterministic_slow_witness :
    ("PROJ1" : String) = "PROJ1" ∧ (1 : Nat) = 1 ∧ (42 : Nat) = 42 ∧
    derive "PROJ1" 1 42 = derive "PROJ1" 1 42 :=
  ⟨rfl, rfl, rfl, derive_deterministic_slow.2.2 "PROJ1" 1 42 "PROJ1" 1 42 rfl rfl rfl⟩

/-- Modelled from the spec and `README.md` ("Feature Importance Normalized":
values sum to ~100%): each model's raw importances are divided by their sum
and scaled to percentage points; when the raw importances all vanish, a
uniform distribution is reported instead of dividing by zero. -/
def normalizeImportances (raw : List ℚ) : List ℚ :=
  if raw.sum = 0 then raw.map (fun _ => 100 / (raw.length : ℚ))
  else raw.map (fun r => r / raw.sum * 100)

theorem sum_map_div_mul (l : List ℚ) (s : ℚ) :
    (l.map (fun r => r / s * 100)).sum = l.sum / s * 100 := by
  induction l with
  | nil => simp
  | cons x xs ih => simp [ih, add_div, add_mul]

theorem sum_map_const_rat (l : List ℚ) (c : ℚ) :
    (l.map (fun _ => c)).sum = (l.length : ℚ) * c := by
  induction l with
  | nil => simp
  | cons x xs ih =>
      simp only [List.map_cons, List.sum_cons, ih, List.length_cons]
      push_cast
      ring

/-- Claim C6: for every non-empty importance map the normalized values sum to
exactly 100 (hence within any rounding epsilon, in particular 0.01), and when
every raw importance is zero the result is the uniform distribution. -/
theorem importance_sum_100 (raw : List ℚ) (h : raw ≠ []) :
    (normalizeImportances raw).sum = 100 ∧
    (raw.sum = 0 →
      normalizeImportances raw = List.replicate raw.length (100 / (raw.length : ℚ))) := by
  have hlen : (raw.length : ℚ) ≠ 0 :=
    Nat.cast_ne_zero.mpr (List.length_pos.mpr h).ne'
  constructor
  · unfold normalizeImportances
    split
    · rw [sum_map_const_rat]
      field_simp
    · rename_i hz
      rw [sum_map_div_mul, div_mul_eq_mul_div, mul_comm, mul_div_assoc,
        div_self hz, mul_one]
  · intro hz
    unfold normalizeImportances
    rw [if_pos hz, List.map_const']

/-- Witness for claim C6 at the concrete raw importances [2, 3]. -/
theorem importance_sum_100_witness :
    ([2, 3] : List ℚ) ≠ [] ∧ (normalizeImportances [2, 3]).sum = 100 :=
  ⟨List.cons_ne_nil 2 [3], (importance_sum_100 [2, 3] (List.cons_ne_nil 2 [3])).1⟩

/-- The training-run status values, embedded from the frontend client
`src/lib/api.ts` (`TrainingRun.status : "pending" | "running" | "completed"
| "failed"`); the spec writes them PENDING, RUNNING, COMPLETED, FAILED. -/
inductive RunStatus : Type where
  | pending : RunStatus
  | running : RunStatus
  | completed : RunStatus
  | failed : RunStatus
deriving DecidableEq, Repr

/-- How far along the run's life cycle a status lies; both terminal states
share the final rank. -/
def RunStatus.rank : RunStatus → Nat
  | RunStatus.pending => 0
  | RunStatus.running => 1
  | RunStatus.completed => 2
  | RunStatus.failed => 2

/-- A training run, embedded from the frontend client `src/lib/api.ts`
(`TrainingRun {id, dataset_id, status, ...}`), reduced to the fields the
status-machine claims speak about. -/
structure TrainingRun : Type where
  id : Nat
  dataset_id : Nat
  status : RunStatus
deriving DecidableEq, Repr

/-- Modelled from the spec: a TrainingRun is created in status PENDING. -/
def createRun (id datasetId : Nat) : TrainingRun :=
  { id := id, dataset_id := datasetId, status := RunStatus.pending }

/-- Modelled from the spec: the status transitions of the orchestrator's state
machine — PENDING → RUNNING on dispatch, RUNNING → COMPLETED or FAILED at the
end; nothing ever leaves a terminal state. -/
inductive StatusStep : RunStatus → RunStatus → Prop where
  | dispatch : StatusStep RunStatus.pending RunStatus.running
  | complete : StatusStep RunStatus.running RunStatus.completed
  | failAll : StatusStep RunStatus.running RunStatus.failed

/-- The outcome of one model's fit-and-evaluate step: its metrics and raw
importances on success, or the exception message it raised. -/
inductive FitOutcome : Type where
  | success (metrics : List (String × ℚ)) (importances : List ℚ) : FitOutcome
  | failure (msg : String) : FitOutcome
deriving DecidableEq, Repr

/-- Whether the fit succeeded. -/
def FitOutcome.isSuccess : FitOutcome → Bool
  | FitOutcome.success _ _ => true
  | FitOutcome.failure _ => false

/-- A per-model result, per the spec's data model: `{model_name, metrics map,
normalized_feature_importance map, error (present iff this model failed)}`. -/
structure ModelResult : Type where
  model_name : String
  metrics : List (String × ℚ)
  importances : List ℚ
  error : Option String
deriving DecidableEq, Repr

/-- Modelled from the spec: turn one model's fit outcome into its result — an
exception is captured as the model's `error` field, a success carries the
metrics and the normalized importances. -/
def runModel (name : String) (o : FitOutcome) : ModelResult :=
  match o with
  | FitOutcome.success ms imps =>
      { model_name := name, metrics := ms,
        importances := normalizeImportances imps, error := none }
  | FitOutcome.failure msg =>
      { model_name := name, metrics := [], importances := [], error := some msg }

/-- Modelled from the spec: the orchestrator runs every model independently,
collecting one `ModelResult` each, and reaches COMPLETED when at least one
model succeeded, FAILED when every model failed. -/
def executeRun (models : List (String × FitOutcome)) : RunStatus × List ModelResult :=
  let results := models.map (fun p => runModel p.1 p.2)
  (if results.any (fun r => r.error.isNone) then RunStatus.completed
   else RunStatus.failed,
   results)

theorem runModel_error_isNone (p : String × FitOutcome) :
    (runModel p.1 p.2).error.isNone = p.2.isSuccess := by
  obtain ⟨n, o⟩ := p
  cases o <;> rfl

theorem executeRun_any (models : List (String × FitOutcome)) :
    ((models.map (fun p => runModel p.1 p.2)).any (fun r => r.error.isNone))
      = models.any (fun p => p.2.isSuccess) := by
  induction models with
  | nil => rfl
  | cons p ps ih => simp [runModel_error_isNone p, ih]

/-- Claim C7: an exception in one model's fit is captured as that model's
`error` field while the run continues — every failing model contributes a
result with its `error` set, every succeeding model contributes its populated
result — and the run is FAILED exactly when every model failed, COMPLETED
whenever some model succeeded. -/
theorem partial_failure_isolation (models : List (String × FitOutcome)) :
    ((executeRun models).1 = RunStatus.failed ↔
      ∀ p ∈ models, p.2.isSuccess = false) ∧
    (∀ n msg, (n, FitOutcome.failure msg) ∈ models →
      ({ model_name := n, metrics := [], importances := [],
         error := some msg } : ModelResult) ∈ (executeRun models).2) ∧
    (∀ n ms imps, (n, FitOutcome.success ms imps) ∈ models →
      ({ model_name := n, metrics := ms, importances := normalizeImportances imps,
         error := none } : ModelResult) ∈ (executeRun models).2) ∧
    ((∃ p ∈ models, p.2.isSuccess = true) →
      (executeRun models).1 = RunStatus.completed) := by
  refine ⟨?_, ?_, ?_, ?_⟩
  · cases hb : models.any (fun p => p.2.isSuccess) with
    | true =>
        simp only [executeRun, executeRun_any, hb, if_true]
        constructor
        · intro h; cases h
        · intro hall
          rw [List.any_eq_true] at hb
          obtain ⟨p, hp, hps⟩ := hb
          rw [hall p hp] at hps
          cases hps
    | false =>
        simp only [executeRun, executeRun_any, hb, if_false]
        constructor
        · intro _ p hp
          rw [List.any_eq_false] at hb
          simpa using hb p hp
        · intro _; rfl
  · intro n msg hmem
    exact List.mem_map_of_mem (fun p => runModel p.1 p.2) hmem
  · intro n ms imps hmem
    exact List.mem_map_of_mem (fun p => runModel p.1 p.2) hmem
  · intro hex
    have hb : models.any (fun p => p.2.isSuccess) = true := by
      rw [List.any_eq_true]
      obtain ⟨p, hp, hps⟩ := hex
      exact ⟨p, hp, hps⟩
    simp only [executeRun, executeRun_any, hb, if_true]

/-- Witness for claim C7: a two-model run in which the second model throws
still reaches COMPLETED, with the failing model's error recorded. -/
theorem partial_failure_isolation_witness :
    ("tree", FitOutcome.failure "fit raised ValueError")
        ∈ [("linear", FitOutcome.success [("r2", (9 : ℚ) / 10)] [2, 3]),
           ("tree", FitOutcome.failure "fit raised ValueError")] ∧
    ({ model_name := "tree", metrics := [], importances := [],
       error := some "fit raised ValueError" } : ModelResult)
      ∈ (executeRun [("linear", FitOutcome.success [("r2", (9 : ℚ) / 10)] [2, 3]),
                     ("tree", FitOutcome.failure "fit raised ValueError")]).2 :=
  ⟨by simp,
   (partial_failure_isolation
      [("linear", FitOutcome.success [("r2", (9 : ℚ) / 10)] [2, 3]),
       ("tree", FitOutcome.failure "fit raised ValueError")]).2.1
     "tree" "fit raised ValueError" (by simp)⟩

/-- Claim C9: every TrainingRun is created PENDING; each transition strictly
increases the life-cycle rank (forward only); COMPLETED and FAILED admit no
outgoing transition; PENDING, RUNNING, COMPLETED, FAILED are the only status
values; and the orchestrator always lands in one of the two terminal
statuses. -/
theorem run_status_machine :
    (∀ id ds, (createRun id ds).status = RunStatus.pending) ∧
    (∀ s t, StatusStep s t → RunStatus.rank s < RunStatus.rank t) ∧
    (∀ t, ¬ StatusStep RunStatus.completed t) ∧
    (∀ t, ¬ StatusStep RunStatus.failed t) ∧
    (∀ s : RunStatus, s = RunStatus.pending ∨ s = RunStatus.running ∨
      s = RunStatus.completed ∨ s = RunStatus.failed) ∧
    (∀ models, (executeRun models).1 = RunStatus.completed ∨
      (executeRun models).1 = RunStatus.failed) := by
  refine ⟨fun _ _ => rfl, ?_, ?_, ?_, ?_, ?_⟩
  · intro s t h
    cases h <;> decide
  · intro t h
    cases h
  · intro t h
    cases h
  · intro s
    cases s
    · exact Or.inl rfl
    · exact Or.inr (Or.inl rfl)
    · exact Or.inr (Or.inr (Or.inl rfl))
    · exact Or.inr (Or.inr (Or.inr rfl))
  · intro models
    cases hb : (models.map (fun p => runModel p.1 p.2)).any (fun r => r.error.isNone) with
    | true => exact Or.inl (by simp [executeRun, hb])
    | false => exact Or.inr (by simp [executeRun, hb])

/-- Witness for claim C9 at the concrete dispatch transition. -/
theorem run_status_machine_witness :
    StatusStep RunStatus.pending RunStatus.running ∧
    RunStatus.rank RunStatus.pending < RunStatus.rank RunStatus.running :=
  ⟨StatusStep.dispatch, run_status_machine.2.1 _ _ StatusStep.dispatch⟩

/-- Modelled from the spec: the slice of a `DatasetProfile` the generator's
error conditions consult — the profiled column names and the row count. -/
structure DatasetProfile : Type where
  columns : List String
  rowCount : Nat
deriving DecidableEq, Repr

/-- The generator's fail-fast errors: `InvalidTaskError` and
`InsufficientDataError`. -/
inductive GenError : Type where
  | invalidTask : GenError
  | insufficientData : GenError
deriving DecidableEq, Repr

/-- The two recognized task types, embedded from the frontend client
`src/lib/api.ts` (`task_type : "classification" | "regression"`). -/
def recognizedTaskTypes : List String := ["classification", "regression"]

/-- Modelled from the spec: the minimum viable row count for the chosen
validation strategy; the spec fixes no number, so 10 rows stands for it. -/
def minViableRows : Nat := 10

/-- Modelled from the spec: below this row count the generator chooses k-fold
cross-validation, above it a single held-out split; the spec fixes no number,
so 1000 rows stands for the small-data threshold. -/
def smallDataThreshold : Nat := 1000

/-- A pipeline specification, following the frontend client's
`PipelineConfig` shape (`src/lib/api.ts`), reduced to the parts the claims
speak about: model candidates, validation and metric set. -/
structure PipelineSpec : Type where
  models : List String
  validation_method : String
  cv_folds : Nat
  test_size : ℚ
  evaluation_metrics : List String
deriving DecidableEq, Repr

/-- Modelled from the spec: `generate(profile, target_variable, task_type) ->
PipelineSpec`, failing fast with `InvalidTaskError` when the target is absent
from the profile or the task type is unrecognized, and with
`InsufficientDataError` when the row count is below the minimum viable
threshold; otherwise a deterministic spec is produced. -/
def generatePipeline (profile : DatasetProfile) (target taskType : String) :
    Except GenError PipelineSpec :=
  if target ∈ profile.columns then
    if taskType ∈ recognizedTaskTypes then
      if profile.rowCount < minViableRows then
        Except.error GenError.insufficientData
      else
        Except.ok
          { models :=
              if taskType = "classification" then
                ["logistic_regression", "decision_tree", "random_forest"]
              else
                ["linear_regression", "decision_tree_regressor", "random_forest_regressor"]
            validation_method :=
              if profile.rowCount < smallDataThreshold then "kfold" else "holdout"
            cv_folds := 5
            test_size := 1 / 5
            evaluation_metrics :=
              if taskType = "classification" then
                ["accuracy", "precision", "recall", "f1", "confusion_matrix"]
              else
                ["rmse", "mae", "r2"] }
    else Except.error GenError.invalidTask
  else Except.error GenError.invalidTask

/-- Modelled from the spec: the `configureAndRun` entry point — the pipeline
is generated first, and only on success is the training orchestrated, so a
generator error is surfaced to the caller before any training starts. -/
def configureAndRun (profile : DatasetProfile) (target taskType : String)
    (outcomes : List (String × FitOutcome)) :
    Except GenError (RunStatus × List ModelResult) :=
  match generatePipeline profile target taskType with
  | Except.error e => Except.error e
  | Except.ok _ => Except.ok (executeRun outcomes)

/-- Claim C8: `generate` fails with `InvalidTaskError` when the target
variable is absent from the profile or the task type is unrecognized, with
`InsufficientDataError` when the row count is below the minimum viable
threshold, and any such error is surfaced to the caller before any training
starts. -/
theorem generate_fails_fast (profile : DatasetProfile) (target taskType : String)
    (outcomes : List (String × FitOutcome)) :
    (target ∉ profile.columns →
      generatePipeline profile target taskType = Except.error GenError.invalidTask) ∧
    (taskType ∉ recognizedTaskTypes →
      generatePipeline profile target taskType = Except.error GenError.invalidTask) ∧
    (target ∈ profile.columns → taskType ∈ recognizedTaskTypes →
      profile.rowCount < minViableRows →
      generatePipeline profile target taskType = Except.error GenError.insufficientData) ∧
    (∀ e, generatePipeline profile target taskType = Except.error e →
      configureAndRun profile target taskType outcomes = Except.error e) := by
  refine ⟨?_, ?_, ?_, ?_⟩
  · intro h
    simp [generatePipeline, h]
  · intro h
    by_cases ht : target ∈ profile.columns
    · simp [generatePipeline, ht, h]
    · simp [generatePipeline, ht]
  · intro h1 h2 h3
    simp [generatePipeline, h1, h2, h3]
  · intro e he
    simp [configureAndRun, he]

/-- Witness for claim C8: a profile without the requested target variable is
rejected with `InvalidTaskError` and no training runs. -/
theorem generate_fails_fast_witness :
    ("price" : String) ∉ ["age", "city"] ∧
    generatePipeline { columns := ["age", "city"], rowCount := 500 } "price" "regression"
      = Except.error GenError.invalidTask ∧
    configureAndRun { columns := ["age", "city"], rowCount := 500 } "price" "regression" []
      = Except.error GenError.invalidTask := by
  have h : ("price" : String) ∉ ["age", "city"] := by decide
  have hgen := (generate_fails_fast
      { columns := ["age", "city"], rowCount := 500 } "price" "regression" []).1 h
  exact ⟨h, hgen,
    (generate_fails_fast { columns := ["age", "city"], rowCount := 500 }
        "price" "regression" []).2.2.2 GenError.invalidTask hgen⟩

/-- The error object the frontend API client inspects: `error.response?.status`
is `none` when the request produced no response at all.  Embedded from
`src/lib/api.ts`. -/
structure ApiError : Type where
  status : Option Nat
deriving DecidableEq, Repr

/-- A successful HTTP response as the interceptor sees it. -/
structure ApiResponse : Type where
  status : Nat
  body : String
deriving DecidableEq, Repr

/-- The browser state the interceptor touches: the token stored in
localStorage and the current location. -/
structure ClientState : Type where
  token : Option String
  location : String
deriving DecidableEq, Repr

/-- The frontend response interceptor, embedded from `src/lib/api.ts` lines
22-31: a fulfilled response passes through; a rejected one with HTTP status
401 first removes the stored token and redirects to /login, then propagates
the same error; any other rejection propagates unchanged. -/
def responseInterceptor (st : ClientState) (r : Except ApiError ApiResponse) :
    ClientState × Except ApiError ApiResponse :=
  match r with
  | Except.ok resp => (st, Except.ok resp)
  | Except.error e =>
      if e.status = some 401 then
        ({ token := none, location := "/login" }, Except.error e)
      else
        (st, Except.error e)

/-- Claim C10: a response rejected with HTTP status 401 clears the stored
token and redirects the browser to /login while propagating the error to the
caller; every other rejection, and every fulfilled response, passes through
with the client state unchanged. -/
theorem interceptor_401_clears_token (st : ClientState) (e : ApiError)
    (resp : ApiResponse) :
    (e.status = some 401 →
      responseInterceptor st (Except.error e)
        = ({ token := none, location := "/login" }, Except.error e)) ∧
    (e.status ≠ some 401 →
      responseInterceptor st (Except.error e) = (st, Except.error e)) ∧
    responseInterceptor st (Except.ok resp) = (st, Except.ok resp) := by
  refine ⟨?_, ?_, rfl⟩
  · intro h
    simp [responseInterceptor, h]
  · intro h
    simp [responseInterceptor, h]

/-- Witness for claim C10 at a concrete logged-in state receiving a 401. -/
theorem interceptor_401_clears_token_witness :
    ({ status := some 401 } : ApiError).status = some 401 ∧
    responseInterceptor { token := some "jwt-abc", location := "/dashboard" }
        (Except.error { status := some 401 })
      = ({ token := none, location := "/login" }, Except.error { status := some 401 }) :=
  ⟨rfl,
   (interceptor_401_clears_token { token := some "jwt-abc", location := "/dashboard" }
      { status := some 401 } { status := 200, body := "" }).1 rfl⟩

end FedLearn
